import Mathlib

/-!
Verification development for the Bedrock chat application (`app/main.py`).

The Python program is shallowly embedded: each Lean definition mirrors one
function (or one code slice) of `app/main.py`, with external collaborators
(the Bedrock runtime, the S3 existence check, the retriever) supplied as
explicit input parameters, since each line of the program consumes their
results as opaque values.
-/

namespace App

/-- Python truthiness of an optional string (`not s3_uri` in the source):
`None` and the empty string are falsy. -/
def pyFalsy : Option String → Bool
  | none => true
  | some s => s.isEmpty

/-- Python substring containment: `needle in hay` for strings. -/
def pyIn (needle hay : String) : Bool := decide (needle.data <:+: hay.data)

/-- Python `f"{x}"` rendering of an optional string: `None` prints as "None". -/
def pyStr : Option String → String
  | none => "None"
  | some s => s

/-! ## Video job data model (`handle_video_generation`, lines 281-335)

`job_details` returned by `bedrock_handler.generate_video` is consumed in
`main.py` through exactly two keys: `invocation_arn` (line 308) and
`s3_details` with sub-keys `bucket` and `prefix` (lines 311-314). -/

/-- `job_details["s3_details"]`: bucket plus key `"prefix"` (named `pfx` here). -/
structure S3Details where
  bucket : String
  pfx : String
deriving DecidableEq, Repr

/-- `st.session_state.video_job`: the persisted job handle. -/
structure VideoJob where
  invocation_arn : String
  s3_details : S3Details
deriving DecidableEq, Repr

/-- Result of one `client.get_async_invoke(invocationArn=...)` call, as seen by
`get_video_status`: either a response dict (whose `status` and
`failureMessage` keys may be absent) or a raised exception. -/
inductive StatusResp
  | ok (status : Option String) (failureMsg : Option String)
  | exn (msg : String)
deriving DecidableEq, Repr

/-- The dict returned by `get_video_status` (lines 44-60). -/
structure VideoStatus where
  status : String
  completed : Bool
  failed : Bool
  error : Option String
deriving DecidableEq, Repr

/-- `get_video_status` (lines 44-60): on a normal response the status string
defaults to "Unknown"; `completed` and `failed` compare the raw (possibly
absent) status; on ANY exception it returns
`{"status": "Error", "completed": False, "failed": True, "error": str(e)}`. -/
def get_video_status : StatusResp → VideoStatus
  | .ok s fm =>
    { status := s.getD "Unknown"
      completed := s == some "Completed"
      failed := s == some "Failed"
      error := fm }
  | .exn e =>
    { status := "Error", completed := false, failed := true, error := some e }

/-- Line 318: the success message appended to the conversation. -/
def successMessage (bucket videoPath : String) : String :=
  "✅ Video generation completed! Video available at: s3://" ++ bucket ++ "/" ++ videoPath

/-- Line 326: the failure message appended to the conversation
(`status["error"]` rendered the way a Python f-string renders it). -/
def failureMessage (err : Option String) : String :=
  "❌ Video generation failed: " ++ pyStr err

/-- One iteration of the `while True` polling loop consumes one backend status
response and (when the status is completed) one
`S3Handler().check_video_exists` answer `(exists, resolvedPath)`.
An observation bundles the three external values an iteration may consume. -/
abbrev PollObs := StatusResp × Bool × String

/-- Outcome of one iteration of the polling loop body (lines 307-335):
either a terminal report line is appended to the conversation and the loop
breaks, or the loop shows a transient placeholder and polls again. -/
inductive StepOut
  | successReport (msg : String)
  | failureReport (msg : String)
  | keepPolling
deriving DecidableEq, Repr

/-- One iteration of the loop body (lines 308-333): fetch status; if
`status["completed"]`, check S3 and either report success (line 318) or keep
waiting for the upload (line 323); elif `status["failed"]`, report failure
(line 326); else keep polling (line 333). -/
def pollIter (job : VideoJob) (resp : StatusResp) (videoExists : Bool)
    (videoPath : String) : StepOut :=
  let status := get_video_status resp
  if status.completed then
    if videoExists then
      .successReport (successMessage job.s3_details.bucket videoPath)
    else
      .keepPolling
  else if status.failed then
    .failureReport (failureMessage status.error)
  else
    .keepPolling

/-- The `while True` loop of `handle_video_generation` (lines 307-335), run
against a finite list of external observations. Returns the conversation
reports appended via `update_chat_history`, the final
`st.session_state.video_job` value, and whether the loop broke out
(it clears the job and breaks exactly when a terminal report is emitted;
if the observations run out the loop is still polling with the job intact). -/
def pollLoop (job : VideoJob) : List PollObs → List String × Option VideoJob × Bool
  | [] => ([], some job, false)
  | (r, v, p) :: rest =>
    match pollIter job r v p with
    | .successReport m => ([m], none, true)
    | .failureReport m => ([m], none, true)
    | .keepPolling => pollLoop job rest

/-- Result of one call to `handle_video_generation`. -/
structure VideoRunResult where
  reports : List String
  finalJob : Option VideoJob
  submitted : Bool
  terminated : Bool
deriving DecidableEq, Repr

/-- `handle_video_generation` (lines 281-335): when
`st.session_state.video_job is None` a new job is submitted via
`generate_video` (its returned `job_details` is the `newJob` parameter) and
stored; otherwise NO submission happens and no error is raised — control
falls directly into the polling loop over the already-stored job. -/
def handle_video_generation (job : Option VideoJob) (newJob : VideoJob)
    (obs : List PollObs) : VideoRunResult :=
  let submitted := job.isNone
  let polled := job.getD newJob
  let r := pollLoop polled obs
  { reports := r.1, finalJob := r.2.1, submitted := submitted, terminated := r.2.2 }

/-! ## Model parameter selection (`main`, lines 170-181)

`model_params` is a Python dict literal; iteration order is its insertion
order. `params = next((params for key, params in model_params.items() if key
in model_id), configs["nova_model_params"])`. The four config bundles are
represented by name; `configs["nova_model_params"]` is both the `"nova"`
entry and the fallback. -/

/-- The four parameter bundles named in `model_params` plus the fallback
(`novaText` stands for `configs["nova_model_params"]`, used for both the
`"nova"` key and the no-match fallback). -/
inductive ParamSet
  | novaCanvas
  | novaReel
  | claude
  | novaText
deriving DecidableEq, Repr

/-- The `model_params` dict (lines 171-176), in insertion order. -/
def model_params : List (String × ParamSet) :=
  [("nova-canvas", .novaCanvas), ("nova-reel", .novaReel),
   ("anthropic", .claude), ("nova", .novaText)]

/-- Lines 178-181: first dict entry whose key is a substring of `model_id`
wins; when none matches, `configs["nova_model_params"]` is returned. -/
def selectModelParams (model_id : String) : ParamSet :=
  match model_params.find? (fun kv => pyIn kv.1 model_id) with
  | some kv => kv.2
  | none => .novaText

/-- The three backend invocation shapes. -/
inductive Protocol
  | text
  | image
  | video
deriving DecidableEq, Repr

/-- The protocol family each parameter bundle belongs to (`nova-canvas` =
image generation, `nova-reel` = video generation, the claude and nova
bundles both drive the text/converse path). -/
def paramProtocol : ParamSet → Protocol
  | .novaCanvas => .image
  | .novaReel => .video
  | .claude => .text
  | .novaText => .text

/-! ## Per-turn dispatch (`main`, lines 224-269) -/

/-- Lines 252-262: the assistant branch dispatches on `model_id` substrings —
`"nova-canvas"` to image generation, else `"nova-reel"` to video generation,
else text generation. -/
def dispatchProtocol (model_id : String) : Protocol :=
  if pyIn "nova-canvas" model_id then .image
  else if pyIn "nova-reel" model_id then .video
  else .text

/-- Lines 233-237: `retriever.get_relevant_docs(prompt)` is called exactly
when the model is neither `nova-canvas` nor `nova-reel`. -/
def retrievalPerformed (model_id : String) : Bool :=
  !(pyIn "nova-canvas" model_id || pyIn "nova-reel" model_id)

/-- Lines 233-237: the `docs` value used for the turn — the retriever results on the text path, the literal `[]` on the image/video paths. -/
def turnDocs {α : Type} (model_id : String) (results : List α) : List α :=
  if retrievalPerformed model_id then results else []

/-- The remote calls the turn-handling slice can make. -/
inductive BackendCall
  | retrieveDocs
  | invokeImageModel
  | submitVideoJob
  | getAsyncStatus
  | checkS3Video
  | invokeTextModel
deriving DecidableEq, Repr

/-- Backend calls made by the polling loop: every iteration calls
`get_async_invoke` (line 308); iterations whose status is completed also
call `check_video_exists` (line 312); the loop stops calling after a
terminal report. -/
def pollCalls (job : VideoJob) : List PollObs → List BackendCall
  | [] => []
  | (r, v, p) :: rest =>
    let here := BackendCall.getAsyncStatus ::
      (if (get_video_status r).completed then [BackendCall.checkS3Video] else [])
    match pollIter job r v p with
    | .keepPolling => here ++ pollCalls job rest
    | _ => here

/-- Line 230: the `st.error` text of the fail-fast path. -/
def configErrorMsg : String := "Please provide an S3 output location for video generation"

/-- The chat-input turn slice of `main` (lines 224-269), projected onto the
error surfaced and the backend calls made. Line 229: if `"nova-reel" in
model_id and not s3_uri`, `st.error(...)` fires and the handler returns
before the retriever or any Bedrock call. Otherwise `docs` is fetched per
lines 233-237 and the turn is dispatched per lines 252-262 (the video path
submits only when no job is stored, then polls — lines 294-335). -/
def processTurn (model_id : String) (s3_uri : Option String) (job : Option VideoJob)
    (newJob : VideoJob) (obs : List PollObs) : Option String × List BackendCall :=
  if pyIn "nova-reel" model_id && pyFalsy s3_uri then
    (some configErrorMsg, [])
  else
    let docsCalls := if retrievalPerformed model_id then [BackendCall.retrieveDocs] else []
    let dispatchCalls :=
      match dispatchProtocol model_id with
      | .image => [BackendCall.invokeImageModel]
      | .video =>
        (if job.isNone then [BackendCall.submitVideoJob] else []) ++
          pollCalls (job.getD newJob) obs
      | .text => [BackendCall.invokeTextModel]
    (none, docsCalls ++ dispatchCalls)

/-! ## Text generation (`handle_text_generation`, lines 337-399)

A wire message is consumed in this slice through `msg["role"]` and
`msg["content"][0]["text"]` only; `bedrock_handler.system_message()` is an
externally built wire message (or `None` when no system prompt is
configured) and enters as a parameter. -/

/-- A backend wire message, projected onto the fields this slice reads:
`role` and `content[0].text`. -/
structure WireMessage where
  role : String
  text : String
deriving DecidableEq, Repr

/-- Lines 360-364: when `system_msg` is truthy, the list is non-empty and the
role of the first message is `"user"`, the system text plus `"\n\n"` is prepended
to the text of the first message (value view of the mutation; the aliasing with
the persisted history is modelled separately below). -/
def prependSysFirstUser (sys : Option WireMessage) (msgs : List WireMessage) :
    List WireMessage :=
  match sys, msgs with
  | some s, m :: rest =>
    if m.role == "user" then { m with text := s.text ++ "\n\n" ++ m.text } :: rest
    else m :: rest
  | _, ms => ms

/-- The message list handed to the backend for one text turn
(lines 347-386): `full_messages` always receives the first-user-message
prepend; the streaming call sends `full_messages`; the non-streaming call on
an `"anthropic"` model additionally places `system_msg` in front
(lines 378-384); other non-streaming models send `full_messages` as is. -/
def modelInput (sys : Option WireMessage) (model_id : String) (streaming : Bool)
    (msgs : List WireMessage) : List WireMessage :=
  let full := prependSysFirstUser sys msgs
  if streaming then full
  else if pyIn "anthropic" model_id then sys.toList ++ full
  else full

/-- Concatenation of the text blocks of a message list, used to compare the
textual model input of the two paths. -/
def allText (msgs : List WireMessage) : String :=
  String.join (msgs.map (·.text))

/-! ## Aliasing of the persisted wire history (`handle_text_generation`,
lines 347 and 360-364)

`full_messages = messages.copy()` (line 347) copies only the list of
references; the message dicts themselves are shared with
`st.session_state.bedrock_messages`. The heap/reference split below makes
that sharing explicit: `history` is the persisted list of references and
`heap` maps references to message objects. -/

/-- The persisted `st.session_state.bedrock_messages`, as references into a
heap of message objects. -/
structure WireStore where
  heap : Nat → Option WireMessage
  history : List Nat

/-- Python `list.copy()`: a new list holding the same element references. -/
def listCopy (l : List Nat) : List Nat := l

/-- Mutation of one heap cell (`full_messages[0]["content"][0]["text"] = ...`
writes through the shared reference). -/
def setRef (h : Nat → Option WireMessage) (r : Nat) (m : WireMessage) :
    Nat → Option WireMessage :=
  fun n => if n = r then some m else h n

/-- The system-prompt prepend of one text turn acting on the persisted store
(lines 347, 360-364): the shallow copy shares message objects, so when the
guard of line 361 holds, the assignment of line 364 updates the heap cell
that the first reference of the persisted history points to. -/
def textTurnPrependSys (sys : Option WireMessage) (st : WireStore) : WireStore :=
  let full := listCopy st.history
  match sys, full with
  | some s, r :: _ =>
    match st.heap r with
    | some m =>
      if m.role == "user" then
        { st with heap := setRef st.heap r { m with text := s.text ++ "\n\n" ++ m.text } }
      else st
    | none => st
  | _, _ => st

/-- The text of the first persisted wire message, read through the store. -/
def firstStoredText (st : WireStore) : Option String :=
  st.history.head?.bind fun r => (st.heap r).map (·.text)

/-! ## Session state and `clear_screen` (lines 17-25) -/

/-- Display content of a chat message: either a plain string or a dict with a
`text` and optionally an `image` key (lines 213-222). -/
inductive DisplayContent
  | plain (s : String)
  | rich (text : String) (image : Option String)
deriving DecidableEq, Repr

/-- One entry of `st.session_state.messages`. -/
structure ChatMessage where
  role : String
  content : DisplayContent
deriving DecidableEq, Repr

/-- The session-state keys this program reads and writes.
`uploaded_document_content` is modelled as an association list of file name
to processing info; `video_job` being `none` covers both the key being
absent and the key holding `None` (the program treats the two alike:
lines 24-25, 291-292). -/
structure SessionState where
  messages : List ChatMessage
  bedrock_messages : List WireMessage
  uploaded_document_content : List (String × String)
  uploaded_files : List String
  video_job : Option VideoJob
deriving DecidableEq, Repr

/-- `clear_screen` (lines 17-25), with `configs["start_message"]` as the
`start_message` parameter: four sequential assignments — reset `messages` to
the single start message, empty `bedrock_messages`, empty
`uploaded_document_content`, and set `video_job` to `None` (when the key is
present; absent and `None` coincide in this model). -/
def clear_screen (start_message : String) (s : SessionState) : SessionState :=
  let s1 := { s with messages := [{ role := "assistant", content := .plain start_message }] }
  let s2 := { s1 with bedrock_messages := [] }
  let s3 := { s2 with uploaded_document_content := [] }
  { s3 with video_job := none }

/-! ## Helper lemmas -/

/-- Whenever the polling loop breaks out, it has appended exactly one
conversation report and cleared the stored job. -/
theorem pollLoop_break_unique (job : VideoJob) :
    ∀ (obs : List PollObs) (reports : List String) (fj : Option VideoJob),
      pollLoop job obs = (reports, fj, true) → reports.length = 1 ∧ fj = none := by
  intro obs
  induction obs with
  | nil =>
    intro reports fj h
    simp [pollLoop] at h
  | cons head rest ih =>
    intro reports fj h
    obtain ⟨r, v, p⟩ := head
    rcases hstep : pollIter job r v p with m | m | _ <;>
      simp only [pollLoop, hstep, Prod.mk.injEq] at h
    · exact ⟨h.1.symm ▸ rfl, h.2.1.symm⟩
    · exact ⟨h.1.symm ▸ rfl, h.2.1.symm⟩
    · exact ih reports fj h

/-- The document-retrieval call never occurs inside the polling loop. -/
theorem retrieveDocs_not_in_pollCalls (j : VideoJob) (obs : List PollObs) :
    BackendCall.retrieveDocs ∉ pollCalls j obs := by
  induction obs with
  | nil => simp [pollCalls]
  | cons head rest ih =>
    obtain ⟨r, v, p⟩ := head
    rcases hstep : pollIter j r v p with m | m | _ <;>
      cases hc : (get_video_status r).completed <;>
        simp [pollCalls, hstep, hc, ih]

/-! ## Claims -/

/-- C1 counterexample: a transport error while fetching job status
(`get_async_invoke` raising "Connection timeout") makes the very next poll
iteration emit a terminal failure report and clear the job — the run is not
the no-report, same-handle, keep-polling outcome the claim requires. -/
theorem C1_counterexample :
    pollLoop ⟨"arn", ⟨"bkt", "out/"⟩⟩ [(.exn "Connection timeout", false, "")] =
      (["❌ Video generation failed: Connection timeout"], none, true) ∧
    pollLoop ⟨"arn", ⟨"bkt", "out/"⟩⟩ [(.exn "Connection timeout", false, "")] ≠
      (([] : List String), some ⟨"arn", ⟨"bkt", "out/"⟩⟩, false) := by
  exact ⟨rfl, by decide⟩

/-- C1 (amended): an exception from the status call is mapped by
`get_video_status` to `failed := true` carrying the exception text, so the
polling loop treats a transport error as a terminal failure — it emits the
failure report to the conversation and clears the job instead of retrying. -/
theorem C1_transport_error_is_terminal (j : VideoJob) (msg : String) (v : Bool)
    (p : String) (rest : List PollObs) :
    get_video_status (.exn msg) =
      { status := "Error", completed := false, failed := true, error := some msg } ∧
    pollLoop j ((.exn msg, v, p) :: rest) = ([failureMessage (some msg)], none, true) := by
  exact ⟨rfl, rfl⟩

/-- C2: a backend-reported "Completed" status with no artifact in S3 keeps the
loop polling (the iteration is a no-op continuation and, with no further
observations, the job is still stored and the loop has not terminated); a
success report can only arise from an iteration where the backend status is
completed AND the S3 existence check is positive. -/
theorem C2_completed_requires_artifact (j : VideoJob) (fm : Option String)
    (p : String) (rest : List PollObs) (resp : StatusResp) (v : Bool) (q : String)
    (m : String) :
    pollLoop j ((.ok (some "Completed") fm, false, p) :: rest) = pollLoop j rest ∧
    pollLoop j [(.ok (some "Completed") fm, false, p)] = ([], some j, false) ∧
    (pollIter j resp v q = .successReport m →
      (get_video_status resp).completed = true ∧ v = true) := by
  refine ⟨rfl, rfl, ?_⟩
  intro h
  cases hc : (get_video_status resp).completed with
  | false =>
    cases hf : (get_video_status resp).failed <;> simp [pollIter, hc, hf] at h
  | true =>
    cases hv : v with
    | false => simp [pollIter, hc, hv] at h
    | true => exact ⟨rfl, rfl⟩

/-- C2 witness: at a concrete completed status with the artifact present, the
iteration is a success report, and the theorem instance applies. -/
theorem C2_completed_requires_artifact_witness :
    pollIter ⟨"arn", ⟨"b", "k"⟩⟩ (.ok (some "Completed") none) true "k/video.mp4" =
      .successReport (successMessage "b" "k/video.mp4") ∧
    ((get_video_status (.ok (some "Completed") none)).completed = true ∧ true = true) := by
  refine ⟨rfl, ?_⟩
  exact (C2_completed_requires_artifact ⟨"arn", ⟨"b", "k"⟩⟩ none "" []
    (.ok (some "Completed") none) true "k/video.mp4"
    (successMessage "b" "k/video.mp4")).2.2 rfl

/-- C4 counterexample: with a job already stored, a new video request does not
submit (`submitted = false`) but also surfaces no rejection error — the
handler polls the OLD job, and on a terminal status the stored job is
cleared, so the active job state is NOT left untouched. -/
theorem C4_counterexample :
    handle_video_generation (some ⟨"arn-old", ⟨"b", "k"⟩⟩) ⟨"arn-new", ⟨"b2", "k2"⟩⟩
        [(.ok (some "Failed") (some "boom"), false, "")] =
      { reports := ["❌ Video generation failed: boom"], finalJob := none,
        submitted := false, terminated := true } ∧
    (none : Option VideoJob) ≠ some ⟨"arn-old", ⟨"b", "k"⟩⟩ := by
  exact ⟨rfl, by decide⟩

/-- C4 (amended): a video request arriving while a job is stored performs no
new submission and raises no error; the handler simply resumes polling the
existing job, whose state evolves with the poll outcomes (in particular it
is cleared when polling reaches a terminal report). -/
theorem C4_active_job_resumed (j newJob : VideoJob) (obs : List PollObs) :
    handle_video_generation (some j) newJob obs =
      { reports := (pollLoop j obs).1, finalJob := (pollLoop j obs).2.1,
        submitted := false, terminated := (pollLoop j obs).2.2 } := rfl

/-- C7: whenever a run of `handle_video_generation` terminates, exactly one
terminal report has been appended to the conversation and the stored job has
been cleared; and a submission with no stored job always goes through. -/
theorem C7_single_terminal_report (job : Option VideoJob) (newJob : VideoJob)
    (obs : List PollObs)
    (h : (handle_video_generation job newJob obs).terminated = true) :
    (handle_video_generation job newJob obs).reports.length = 1 ∧
    (handle_video_generation job newJob obs).finalJob = none ∧
    ∀ (nj : VideoJob) (obs2 : List PollObs),
      (handle_video_generation none nj obs2).submitted = true := by
  have hterm : (pollLoop (job.getD newJob) obs).2.2 = true := h
  have hsplit : pollLoop (job.getD newJob) obs =
      ((pollLoop (job.getD newJob) obs).1, (pollLoop (job.getD newJob) obs).2.1, true) := by
    rw [← hterm]
  have h2 := pollLoop_break_unique (job.getD newJob) obs _ _ hsplit
  exact ⟨h2.1, h2.2, fun nj obs2 => rfl⟩

/-- C7 witness: a concrete terminated run (backend reports "Failed") has
exactly one report, a cleared job, and fresh submissions succeed. -/
theorem C7_single_terminal_report_witness :
    (handle_video_generation none ⟨"arn", ⟨"b", "k"⟩⟩
        [(.ok (some "Failed") (some "err"), false, "")]).terminated = true ∧
    ((handle_video_generation none ⟨"arn", ⟨"b", "k"⟩⟩
        [(.ok (some "Failed") (some "err"), false, "")]).reports.length = 1 ∧
     (handle_video_generation none ⟨"arn", ⟨"b", "k"⟩⟩
        [(.ok (some "Failed") (some "err"), false, "")]).finalJob = none ∧
     ∀ (nj : VideoJob) (obs2 : List PollObs),
       (handle_video_generation none nj obs2).submitted = true) := by
  exact ⟨rfl, C7_single_terminal_report none ⟨"arn", ⟨"b", "k"⟩⟩
    [(.ok (some "Failed") (some "err"), false, "")] rfl⟩

/-- C3 (code bug, evaluated at the failing input): with a configured system
text "S", wire history `[user "U"]` and an anthropic model, the
non-streaming request contains the system text twice — as a separate leading
element AND prepended into the first user block — while the streaming
request contains it once, so the two paths are not textually equivalent. -/
theorem C3_system_prompt_duplicated :
    modelInput (some ⟨"system", "S"⟩) "anthropic.claude-3" false [⟨"user", "U"⟩] =
      [⟨"system", "S"⟩, ⟨"user", "S\n\nU"⟩] ∧
    modelInput (some ⟨"system", "S"⟩) "anthropic.claude-3" true [⟨"user", "U"⟩] =
      [⟨"user", "S\n\nU"⟩] ∧
    allText (modelInput (some ⟨"system", "S"⟩) "anthropic.claude-3" false [⟨"user", "U"⟩]) ≠
      allText (modelInput (some ⟨"system", "S"⟩) "anthropic.claude-3" true [⟨"user", "U"⟩]) := by
  refine ⟨by decide, by decide, by decide⟩

/-- C5: parameter selection scans the fixed dict order (image family, video
family, anthropic text family, generic nova family) and the first
key-substring match wins, falling back to the generic nova parameter set;
the selector is a pure function (trivially deterministic), and
"anthropic.claude-x" selects the claude bundle, which drives the text
protocol. -/
theorem C5_first_match_selection (m : String) :
    selectModelParams m =
      (if pyIn "nova-canvas" m then .novaCanvas
       else if pyIn "nova-reel" m then .novaReel
       else if pyIn "anthropic" m then .claude
       else if pyIn "nova" m then .novaText
       else .novaText) ∧
    selectModelParams m = selectModelParams m ∧
    selectModelParams "anthropic.claude-x" = .claude ∧
    paramProtocol (selectModelParams "anthropic.claude-x") = .text := by
  refine ⟨?_, rfl, by decide, by decide⟩
  cases h1 : pyIn "nova-canvas" m <;> cases h2 : pyIn "nova-reel" m <;>
    cases h3 : pyIn "anthropic" m <;> cases h4 : pyIn "nova" m <;>
      simp [selectModelParams, model_params, List.find?, h1, h2, h3, h4]

/-- C6: a video-model turn whose output location is empty or absent stops at
the line-229 guard: the configuration error is surfaced and the backend
call list is empty — no retrieval, no submission, no inference call. -/
theorem C6_missing_output_location_fails_fast (m : String) (s3 : Option String)
    (job : Option VideoJob) (newJob : VideoJob) (obs : List PollObs)
    (hreel : pyIn "nova-reel" m = true) (hempty : pyFalsy s3 = true) :
    processTurn m s3 job newJob obs = (some configErrorMsg, []) := by
  simp [processTurn, hreel, hempty]

/-- C6 witness: a concrete nova-reel model with an absent output location. -/
theorem C6_missing_output_location_fails_fast_witness :
    pyIn "nova-reel" "eu.amazon.nova-reel-v1:1" = true ∧ pyFalsy none = true ∧
    processTurn "eu.amazon.nova-reel-v1:1" none none ⟨"arn", ⟨"b", "k"⟩⟩ [] =
      (some configErrorMsg, []) := by
  exact ⟨by decide, rfl,
    C6_missing_output_location_fails_fast "eu.amazon.nova-reel-v1:1" none none
      ⟨"arn", ⟨"b", "k"⟩⟩ [] (by decide) rfl⟩

/-- C8: the retriever is queried exactly when the turn dispatches to the text
branch; on an image or video turn the retriever is not called, the `docs`
value is the empty list, and no retrieval call occurs anywhere in the
processed turn. -/
theorem C8_retrieval_only_for_text {α : Type} (m : String) (results : List α)
    (s3 : Option String) (job : Option VideoJob) (newJob : VideoJob)
    (obs : List PollObs) :
    (retrievalPerformed m = true ↔ dispatchProtocol m = .text) ∧
    (dispatchProtocol m ≠ .text →
      retrievalPerformed m = false ∧ turnDocs m results = [] ∧
      BackendCall.retrieveDocs ∉ (processTurn m s3 job newJob obs).2) := by
  cases h1 : pyIn "nova-canvas" m <;> cases h2 : pyIn "nova-reel" m <;>
    cases hf : pyFalsy s3 <;>
      simp [retrievalPerformed, dispatchProtocol, turnDocs, processTurn, h1, h2, hf,
        retrieveDocs_not_in_pollCalls]

/-- C8 witness: a concrete image-model turn performs no retrieval. -/
theorem C8_retrieval_only_for_text_witness :
    (dispatchProtocol "amazon.nova-canvas-v1:0" ≠ Protocol.text) ∧
    (retrievalPerformed "amazon.nova-canvas-v1:0" = false ∧
     turnDocs "amazon.nova-canvas-v1:0" [(0 : Nat)] = [] ∧
     BackendCall.retrieveDocs ∉
       (processTurn "amazon.nova-canvas-v1:0" none none ⟨"arn", ⟨"b", "k"⟩⟩ []).2) := by
  exact ⟨by decide,
    (C8_retrieval_only_for_text "amazon.nova-canvas-v1:0" [(0 : Nat)] none none
      ⟨"arn", ⟨"b", "k"⟩⟩ []).2 (by decide)⟩

/-- C9: `clear_screen` is equal, as one state transformer, to the atomic
update that puts the single start message in `messages`, empties
`bedrock_messages`, empties `uploaded_document_content`, sets `video_job` to
none, and changes nothing else. -/
theorem C9_clear_screen_resets (start : String) (s : SessionState) :
    clear_screen start s =
      { messages := [{ role := "assistant", content := .plain start }],
        bedrock_messages := [],
        uploaded_document_content := [],
        uploaded_files := s.uploaded_files,
        video_job := none } := rfl

/-- C10: because line 347 copies the wire-history list only shallowly, the
line-364 assignment writes through to the persisted history: after one text
turn the first stored user message permanently carries the system text, and
a second turn prepends the system text again onto the already-modified
message. -/
theorem C10_shallow_copy_mutates_history (st : WireStore) (sysText : String)
    (r : Nat) (rest : List Nat) (t : String)
    (hhist : st.history = r :: rest)
    (hheap : st.heap r = some ⟨"user", t⟩) :
    firstStoredText (textTurnPrependSys (some ⟨"system", sysText⟩) st) =
      some (sysText ++ "\n\n" ++ t) ∧
    firstStoredText
        (textTurnPrependSys (some ⟨"system", sysText⟩)
          (textTurnPrependSys (some ⟨"system", sysText⟩) st)) =
      some (sysText ++ "\n\n" ++ (sysText ++ "\n\n" ++ t)) := by
  obtain ⟨heap, history⟩ := st
  simp only at hhist hheap
  subst hhist
  constructor
  · simp [textTurnPrependSys, listCopy, firstStoredText, hheap, setRef]
  · simp [textTurnPrependSys, listCopy, firstStoredText, hheap, setRef]

/-- C10 witness: a concrete one-message store; after one turn the stored text
is "S\n\nU", after a second turn it is "S\n\nS\n\nU". -/
theorem C10_shallow_copy_mutates_history_witness :
    ((⟨fun n => if n = 0 then some ⟨"user", "U"⟩ else none, [0]⟩ : WireStore).history =
      0 :: []) ∧
    ((⟨fun n => if n = 0 then some ⟨"user", "U"⟩ else none, [0]⟩ : WireStore).heap 0 =
      some ⟨"user", "U"⟩) ∧
    (firstStoredText (textTurnPrependSys (some ⟨"system", "S"⟩)
        ⟨fun n => if n = 0 then some ⟨"user", "U"⟩ else none, [0]⟩) =
      some ("S" ++ "\n\n" ++ "U") ∧
     firstStoredText (textTurnPrependSys (some ⟨"system", "S"⟩)
        (textTurnPrependSys (some ⟨"system", "S"⟩)
          ⟨fun n => if n = 0 then some ⟨"user", "U"⟩ else none, [0]⟩)) =
      some ("S" ++ "\n\n" ++ ("S" ++ "\n\n" ++ "U"))) := by
  exact ⟨rfl, rfl,
    C10_shallow_copy_mutates_history
      ⟨fun n => if n = 0 then some ⟨"user", "U"⟩ else none, [0]⟩ "S" 0 [] "U" rfl rfl⟩

end App
